import Mathlib

/-!
Formal model of the BiznisWeb order-export pipeline (export_orders.py).

Modelling conventions, used throughout:
* money amounts and rates are exact rationals; the two-decimal rounding the
  script performs with round(x, 2) is made explicit through round2 (Python
  rounds binary floats half-to-even; on the rational model we use the
  standard integer rounding, the tie-breaking rule is irrelevant to every
  statement below);
* JSON text fields are plain strings, with the empty string standing for an
  absent or null field, except where the code distinguishes null from a
  value, where an Option is used;
* dates are year/month/day triples; datetime comparison and day arithmetic
  go through the proleptic-Gregorian ordinal (Python date.toordinal).
-/

namespace BiznisWeb

/-- Two-decimal rounding of a rational, the model of round(x, 2). -/
def round2 (q : ℚ) : ℚ := (round (q * 100) : ℤ) / 100

/-- Leap-year test of the Gregorian calendar (calendar.isleap). -/
def isLeapYear (y : ℕ) : Bool :=
  y % 4 == 0 && (y % 100 != 0 || y % 400 == 0)

/-- Number of days of month m of year y, as calendar.monthrange(y, m)[1]. -/
def daysInMonth (y m : ℕ) : ℕ :=
  if m = 2 then (if isLeapYear y then 29 else 28)
  else if m = 4 ∨ m = 6 ∨ m = 9 ∨ m = 11 then 30
  else 31

/-- PACKAGING_COST_PER_ORDER = 0.3 EUR per order. -/
def PACKAGING_COST_PER_ORDER : ℚ := 3/10

/-- FIXED_MONTHLY_COST = 3000.0 EUR per month. -/
def FIXED_MONTHLY_COST : ℚ := 3000

/-- Model of get_daily_fixed_cost: the monthly fixed cost spread over the
days of the month of the given date (only year and month matter). -/
def getDailyFixedCost (y m : ℕ) : ℚ :=
  FIXED_MONTHLY_COST / (daysInMonth y m : ℚ)

/-- The static CURRENCY_RATES_TO_EUR table.  The source decimals 0.04,
0.0025, 0.23 and 0.92 are written as exact fractions. -/
def CURRENCY_RATES_TO_EUR : List (String × ℚ) :=
  [("EUR", 1), ("CZK", 4/100), ("HUF", 25/10000), ("PLN", 23/100),
   ("USD", 92/100)]

/-- ASCII upper-casing of a string, the model of str.upper() on the
currency codes (which are ASCII). -/
def pyUpper (s : String) : String := ⟨s.data.map Char.toUpper⟩

/-- Model of convert_to_eur: zero for a falsy amount or currency, a table
lookup on the upper-cased code otherwise, and the identity on an unknown
code (which the script treats as EUR after printing a warning). -/
def convertToEur (amount : ℚ) (currency : String) : ℚ :=
  if currency = "" ∨ amount = 0 then 0
  else
    match CURRENCY_RATES_TO_EUR.lookup (pyUpper currency) with
    | none => amount
    | some rate => amount * rate

/-! Dates.  Python datetime values are modelled as year/month/day triples;
time of day is not modelled (no statement below depends on it: week buckets
and day arithmetic are functions of the calendar day alone). -/

/-- A calendar date. -/
structure Date where
  year : ℕ
  month : ℕ
  day : ℕ
deriving DecidableEq, Repr

/-- Days in all years before year y of the proleptic Gregorian calendar. -/
def daysBeforeYear (y : ℕ) : ℕ :=
  365 * (y - 1) + (y - 1) / 4 - (y - 1) / 100 + (y - 1) / 400

/-- Days in the months of year y before month m. -/
def daysBeforeMonth (y m : ℕ) : ℕ :=
  ((List.range (m - 1)).map (fun k => daysInMonth y (k + 1))).sum

/-- Ordinal of a date (date.toordinal): 0001-01-01 is day 1.  Python
datetime comparison and day differences are chronological, hence exactly
comparison and subtraction of ordinals. -/
def Date.toOrdinal (d : Date) : ℕ :=
  daysBeforeYear d.year + daysBeforeMonth d.year d.month + d.day

/-- The calendar day after d. -/
def Date.next (d : Date) : Date :=
  if d.day < daysInMonth d.year d.month then ⟨d.year, d.month, d.day + 1⟩
  else if d.month < 12 then ⟨d.year, d.month + 1, 1⟩
  else ⟨d.year + 1, 1, 1⟩

/-- Iterating Date.next (while current ≤ stop, by ordinal), with fuel. -/
def dateRangeAux : ℕ → Date → Date → List Date
  | 0, _, _ => []
  | n + 1, cur, stop =>
    if cur.toOrdinal ≤ stop.toOrdinal then cur :: dateRangeAux n cur.next stop
    else []

/-- The days from a to b inclusive, as walked by the fetch_orders loop
(current_date += timedelta(days=1) while current_date ≤ date_to). -/
def dateRange (a b : Date) : List Date :=
  dateRangeAux (b.toOrdinal + 1 - a.toOrdinal) a b

/-- Monday-based week bucket of an ordinal; day 1 (0001-01-01) is a Monday,
so ordinals o with (o - 1) / 7 equal lie in one Monday-to-Sunday week.
This models pandas to_period for weekly periods, which depends only on the
calendar day. -/
def weekOfOrdinal (o : ℕ) : ℕ := (o - 1) / 7

/-- Splitting a character list at a separator character. -/
def splitChar (c : Char) : List Char → List (List Char)
  | [] => [[]]
  | x :: xs =>
    match splitChar c xs with
    | [] => [[]]
    | g :: gs => if x = c then [] :: g :: gs else (x :: g) :: gs

/-- Splitting a string at a one-character separator, the model of
str.split(sep) for the separators used by the script. -/
def strSplit (c : Char) (s : String) : List String :=
  (splitChar c s.data).map (fun l => ⟨l⟩)

/-- The digits of a nonnegative decimal integer, the model of the integer
conversion strptime applies to each matched field. -/
def digitsToNat? (l : List Char) : Option ℕ :=
  if l.isEmpty || !(l.all Char.isDigit) then none
  else some (l.foldl (fun n c => 10 * n + (c.toNat - 48)) 0)

/-- Parse a YYYY-MM-DD string, the model of
datetime.strptime(s, %Y-%m-%d): three dash-separated decimal fields with a
valid month and a valid day for that month and year. -/
def parseYMD (s : String) : Option Date :=
  match splitChar '-' s.data with
  | [ys, ms, ds] =>
    match digitsToNat? ys, digitsToNat? ms, digitsToNat? ds with
    | some y, some mo, some da =>
      if 1 ≤ mo ∧ mo ≤ 12 ∧ 1 ≤ da ∧ da ≤ daysInMonth y mo then
        some ⟨y, mo, da⟩
      else none
    | _, _, _ => none
  | _ => none

/-- First whitespace-separated token of a string (str.split()[0], which
discards empty fragments and raises on an all-blank string, modelled by
none). -/
def firstToken (s : String) : Option String :=
  ((strSplit ' ' s).filter (fun t => !(t == ""))).head?

/-- Parse the date part of a pur_date string, the model of
datetime.strptime(pur_date.split()[0], %Y-%m-%d), with none for the
IndexError and ValueError paths the script catches. -/
def parsePurDate (s : String) : Option Date :=
  (firstToken s).bind parseYMD

structure Money where
  value : ℚ
  currency : String
  formatted : String
deriving DecidableEq, Repr

/-- An order status. -/
structure OrderStatus where
  id : String
  name : String
deriving DecidableEq, Repr

/-- The customer block of an order. -/
structure Customer where
  name : String
  surname : String
  company_name : String
  company_id : String
  vat_id : String
  email : String
  phone : String
deriving DecidableEq, Repr

/-- An address block. -/
structure Address where
  street : String
  descriptive_number : String
  orientation_number : String
  city : String
  zip : String
  country : String
deriving DecidableEq, Repr

/-- One order item.  A quantity of 0 models both an absent and a zero
quantity, both of which the script replaces by 1 (quantity or 1); a
tax_rate of 0 models an absent rate (tax_rate or 0). -/
structure OrderItem where
  item_label : String
  ean : String
  import_code : String
  warehouse_number : String
  quantity : ℚ
  tax_rate : ℚ
  weight_value : ℚ
  weight_unit : String
  recycle_fee_value : ℚ
  price : Option Money
deriving DecidableEq, Repr

/-- An order as returned by getOrderList. -/
structure Order where
  id : String
  order_num : String
  external_ref : String
  pur_date : String
  var_symb : String
  last_change : String
  oss : String
  oss_country : String
  status : OrderStatus
  customer : Customer
  invoice_address : Address
  delivery_address : Option Address
  sum : Money
  items : List OrderItem
deriving DecidableEq, Repr

/-- The static PRODUCT_EXPENSES table (expense per item in EUR); the
source decimals are written as exact fractions over 100. -/
def PRODUCT_EXPENSES : List (String × ℚ) :=
  [("Sada vzoriek najpredávanejších vôní Vevo 6 x 10ml", 179/100),
   ("Sada vzoriek všetkých vôní Vevo 6 x 10ml", 179/100),
   ("Sada najpredávanejších vzoriek Vevo 6 x 10ml", 179/100),
   ("Sada 6 najpredávanejších vzoriek po 1ks", 179/100),
   ("Sada najpredávanejších vzoriek 6 x 10ml", 179/100),
   ("Sada vzorků všech vůní Vevo (6 × 10 ml)", 179/100),
   ("Sada vzoriek najpredávanejších vôní Vevo 3 x 10ml", 179/100),
   ("Parfum do prania Vevo No.08 Cotton Dream (500ml)", 653/100),
   ("Vevo No.08 Cotton Dream mosóparfüm (500ml)", 653/100),
   ("Parfum do prania Vevo No.07 Ylang Absolute (200ml)", 279/100),
   ("Vevo No.07 Ylang Absolute mosóparfüm (200ml)", 279/100),
   ("Parfum do prania Vevo No.08 Cotton Dream (200ml)", 315/100),
   ("Parfum do prania Vevo No.09 Pure Garden (200ml)", 286/100),
   ("Parfum do prania Vevo No.01 Cotton Paradise (500ml)", 702/100),
   ("Parfum do prania Vevo No.01 Cotton Paradise (200ml)", 335/100),
   ("Parfum do prania Vevo No.09 Pure Garden (500ml)", 580/100),
   ("Parfém na praní Vevo No.09 Pure Garden (500ml)", 580/100),
   ("Parfum do prania Vevo No.06 Royal Cotton (200ml)", 246/100),
   ("Parfum do prania Vevo No.02 Sweet Paradise (200ml)", 429/100),
   ("Odmerka Vevo 7ml drevená na parfum do prania", 31/100),
   ("Parfum do prania Vevo No.02 Sweet Paradise (500ml)", 938/100),
   ("Parfum do prania Vevo No.07 Ylang Absolute (Vzorka 10ml)", 28/100),
   ("Parfum do prania Vevo No.07 Ylang Absolute (Vzorka)", 28/100),
   ("Parfum do prania Vevo No.06 Royal Cotton (500ml)", 479/100),
   ("Parfum do prania Vevo No.08 Cotton Dream (Vzorka 10ml)", 29/100),
   ("Parfum do prania Vevo No.08 Cotton Dream (Vzorka)", 29/100),
   ("Parfum do prania Vevo No.07 Ylang Absolute (500ml)", 564/100),
   ("Parfum do prania Vevo No.09 Pure Garden (Vzorka 10ml)", 28/100),
   ("Parfum do prania Vevo No.09 Pure Garden (Vzorka)", 28/100),
   ("Parfum do prania Vevo No.02 Sweet Paradise (Vzorka 10ml)", 35/100),
   ("Parfum do prania Vevo No.02 Sweet Paradise (Vzorka)", 35/100),
   ("Parfum do prania Vevo No.06 Royal Cotton (Vzorka 10ml)", 26/100),
   ("Parfum do prania Vevo No.06 Royal Cotton (Vzorka)", 26/100),
   ("Parfum do prania Vevo No.03 Lavender Kiss (Vzorka)", 26/100),
   ("Tringelt", 0),
   ("Parfum do prania Vevo No.01 Cotton Paradise (Vzorka 10ml)", 30/100),
   ("Poistenie proti rozbitiu", 0),
   ("Vevo Shot - koncentrát na čistenie práčky 100ml", 65/100),
   ("Vevo Shot – koncentrát na čištění pračky 100 ml", 65/100),
   ("Prací gél hypoalergénny z Marseillského mydla 1L", 243/100),
   ("Perkarbonát sodný PLUS 1kg", 283/100)]

/-- Python str.strip() restricted to spaces, as applied to the built
customer name. -/
def pyStrip (s : String) : String :=
  ⟨((s.data.dropWhile (fun c => c == ' ')).reverse.dropWhile
      (fun c => c == ' ')).reverse⟩

/-- Order currency: code of the currency block of the order sum, EUR when
that block is absent. -/
def effOrderCurrency (o : Order) : String :=
  if o.sum.currency = "" then "EUR" else o.sum.currency

/-- Customer display name: the company name, or name surname stripped. -/
def customerDisplayName (c : Customer) : String :=
  if c.company_name ≠ "" then c.company_name
  else pyStrip (c.name ++ " " ++ c.surname)

/-- Item unit price in the item currency (price value or 0). -/
def itemPriceValue (it : OrderItem) : ℚ :=
  (it.price.map Money.value).getD 0

/-- Item currency: code of the price currency block, order currency when
the price or its currency block is absent. -/
def itemCurrency (orderCurrency : String) (it : OrderItem) : String :=
  match it.price with
  | none => orderCurrency
  | some p => if p.currency = "" then orderCurrency else p.currency

/-- Effective quantity (quantity or 1). -/
def effQuantity (it : OrderItem) : ℚ :=
  if it.quantity = 0 then 1 else it.quantity

/-- Item total with tax in EUR: unit price converted to EUR times the
quantity. -/
def itemTotalWithTax (oc : String) (it : OrderItem) : ℚ :=
  convertToEur (itemPriceValue it) (itemCurrency oc it) * effQuantity it

/-- Item total without tax: the with-tax total divided by
(1 + tax_rate / 100) for a positive rate, unchanged otherwise. -/
def itemTotalWithoutTax (oc : String) (it : OrderItem) : ℚ :=
  if it.tax_rate > 0 then itemTotalWithTax oc it / (1 + it.tax_rate / 100)
  else itemTotalWithTax oc it

/-- Item tax amount: with-tax total minus without-tax total for a positive
rate, 0 otherwise. -/
def itemTaxAmount (oc : String) (it : OrderItem) : ℚ :=
  if it.tax_rate > 0 then itemTotalWithTax oc it - itemTotalWithoutTax oc it
  else 0

/-- Expense per item from the PRODUCT_EXPENSES table, 0 for an unknown
label. -/
def expensePerItem (it : OrderItem) : ℚ :=
  (PRODUCT_EXPENSES.lookup it.item_label).getD 0

/-- Total product expense of the item row. -/
def itemTotalExpense (it : OrderItem) : ℚ :=
  expensePerItem it * effQuantity it

/-- Item profit before ads. -/
def itemProfitBeforeAds (oc : String) (it : OrderItem) : ℚ :=
  itemTotalWithoutTax oc it - itemTotalExpense it

/-- Item ROI before ads, in percent. -/
def itemRoiBeforeAds (oc : String) (it : OrderItem) : ℚ :=
  if itemTotalExpense it > 0 then
    itemProfitBeforeAds oc it / itemTotalExpense it * 100
  else 0

/-- One flattened CSV row. -/
structure FlatRow where
  order_id : String
  order_num : String
  external_ref : String
  purchase_date : String
  var_symbol : String
  last_change : String
  oss : String
  oss_country : String
  status_id : String
  status_name : String
  customer_name : String
  customer_company_id : String
  customer_vat_id : String
  customer_email : String
  customer_phone : String
  invoice_street : String
  invoice_descriptive_num : String
  invoice_orientation_num : String
  invoice_city : String
  invoice_zip : String
  invoice_country : String
  delivery_street : Option String
  delivery_descriptive_num : Option String
  delivery_orientation_num : Option String
  delivery_city : Option String
  delivery_zip : Option String
  delivery_country : Option String
  order_total_original : ℚ
  order_total : ℚ
  order_total_formatted : String
  order_currency : String
  packaging_cost : ℚ
  total_items_in_order : ℕ
  item_number : Option ℕ
  item_label : Option String
  item_ean : Option String
  item_import_code : Option String
  item_warehouse_number : Option String
  item_quantity : Option ℚ
  item_tax_rate : Option ℚ
  item_weight : Option ℚ
  item_weight_unit : Option String
  item_currency : Option String
  item_unit_price_original : Option ℚ
  item_unit_price : Option ℚ
  item_total_with_tax : Option ℚ
  item_total_without_tax : Option ℚ
  item_tax_amount : Option ℚ
  item_recycle_fee : Option ℚ
  expense_per_item : Option ℚ
  total_expense : Option ℚ
  profit_before_ads : Option ℚ
  roi_before_ads : Option ℚ
deriving DecidableEq, Repr

/-- The base_data dictionary of flatten_order: the denormalized
order-level fields, with every item field absent.  total_items_in_order is
the item count, which both branches of flatten_order then assign. -/
def baseRow (o : Order) : FlatRow :=
  { order_id := o.id
    order_num := o.order_num
    external_ref := o.external_ref
    purchase_date := o.pur_date
    var_symbol := o.var_symb
    last_change := o.last_change
    oss := o.oss
    oss_country := o.oss_country
    status_id := o.status.id
    status_name := o.status.name
    customer_name := customerDisplayName o.customer
    customer_company_id := o.customer.company_id
    customer_vat_id := o.customer.vat_id
    customer_email := o.customer.email
    customer_phone := o.customer.phone
    invoice_street := o.invoice_address.street
    invoice_descriptive_num := o.invoice_address.descriptive_number
    invoice_orientation_num := o.invoice_address.orientation_number
    invoice_city := o.invoice_address.city
    invoice_zip := o.invoice_address.zip
    invoice_country := o.invoice_address.country
    delivery_street := o.delivery_address.map Address.street
    delivery_descriptive_num := o.delivery_address.map Address.descriptive_number
    delivery_orientation_num := o.delivery_address.map Address.orientation_number
    delivery_city := o.delivery_address.map Address.city
    delivery_zip := o.delivery_address.map Address.zip
    delivery_country := o.delivery_address.map Address.country
    order_total_original := o.sum.value
    order_total := convertToEur o.sum.value (effOrderCurrency o)
    order_total_formatted := o.sum.formatted
    order_currency := effOrderCurrency o
    packaging_cost := PACKAGING_COST_PER_ORDER
    total_items_in_order := o.items.length
    item_number := none
    item_label := none
    item_ean := none
    item_import_code := none
    item_warehouse_number := none
    item_quantity := none
    item_tax_rate := none
    item_weight := none
    item_weight_unit := none
    item_currency := none
    item_unit_price_original := none
    item_unit_price := none
    item_total_with_tax := none
    item_total_without_tax := none
    item_tax_amount := none
    item_recycle_fee := none
    expense_per_item := none
    total_expense := none
    profit_before_ads := none
    roi_before_ads := none }

/-- The row flatten_order builds for item number idx (1-based), updating
the base row with the item fields; money fields carry the two-decimal
rounding applied by the script. -/
def itemRow (o : Order) (idx : ℕ) (it : OrderItem) : FlatRow :=
  let oc := effOrderCurrency o
  { baseRow o with
    item_number := some idx
    item_label := some it.item_label
    item_ean := some it.ean
    item_import_code := some it.import_code
    item_warehouse_number := some it.warehouse_number
    item_quantity := some (effQuantity it)
    item_tax_rate := some it.tax_rate
    item_weight := some it.weight_value
    item_weight_unit := some it.weight_unit
    item_currency := some (itemCurrency oc it)
    item_unit_price_original := some (itemPriceValue it)
    item_unit_price := some (convertToEur (itemPriceValue it) (itemCurrency oc it))
    item_total_with_tax := some (round2 (itemTotalWithTax oc it))
    item_total_without_tax := some (round2 (itemTotalWithoutTax oc it))
    item_tax_amount := some (round2 (itemTaxAmount oc it))
    item_recycle_fee := some it.recycle_fee_value
    expense_per_item := some (expensePerItem it)
    total_expense := some (round2 (itemTotalExpense it))
    profit_before_ads := some (round2 (itemProfitBeforeAds oc it))
    roi_before_ads := some (round2 (itemRoiBeforeAds oc it)) }

/-- The rows for the items of an order, numbered from idx (enumerate
starting at 1 in the source). -/
def itemRows (o : Order) (idx : ℕ) : List OrderItem → List FlatRow
  | [] => []
  | it :: rest => itemRow o idx it :: itemRows o (idx + 1) rest

/-- Model of flatten_order: one row per item, or a single base row for an
order without items. -/
def flattenOrder (o : Order) : List FlatRow :=
  if o.items.isEmpty then [baseRow o] else itemRows o 1 o.items

structure SpendRow extends FlatRow where
  fb_ads_daily_spend : ℚ
  google_ads_daily_spend : ℚ
deriving DecidableEq, Repr

/-- Model of the spend-column merge in export_to_csv: each row receives
its day's Facebook and Google spend, with 0 for a day absent from a map
(map followed by fillna(0)). -/
def addSpend (fb g : Date → ℚ) (r : FlatRow) : SpendRow :=
  { toFlatRow := r
    fb_ads_daily_spend :=
      match parsePurDate r.purchase_date with
      | some d => fb d
      | none => 0
    google_ads_daily_spend :=
      match parsePurDate r.purchase_date with
      | some d => g d
      | none => 0 }

/-- The purchase_date_only group key of a row (pandas raises on an
unparsable purchase date; the none key is outside every statement
below). -/
def rowDate (r : SpendRow) : Option Date := parsePurDate r.purchase_date

/-- The rows of one date group, in dataframe order. -/
def rowsOfDate (rows : List SpendRow) (k : Option Date) : List SpendRow :=
  rows.filter (fun r => decide (rowDate r = k))

/-- The distinct group keys of the date grouping. -/
def dateKeys (rows : List SpendRow) : List (Option Date) :=
  (rows.map rowDate).dedup

/-- One row of the date-only aggregation. -/
structure DateAggRow where
  date : Option Date
  total_quantity : ℚ
  total_revenue : ℚ
  product_expense : ℚ
  profit_before_ads : ℚ
  fb_ads_spend : ℚ
  google_ads_spend : ℚ
  unique_orders : ℕ
  total_items : ℕ
  packaging_cost : ℚ
  fixed_daily_cost : ℚ
  total_cost : ℚ
  net_profit : ℚ
  roi_percent : ℚ
deriving DecidableEq, Repr

/-- The date-aggregation row of one group, with the derived columns as
create_aggregated_reports computes them: pandas sums skip the NaN of
itemless rows (getD 0); nunique counts distinct order numbers; count
counts non-null item labels; the spend columns take the first value of
the group; the daily fixed cost is rounded to two decimals when the
column is built.  The roi_percent value carries the rounding of its
defining expression; the final two-decimal rounding of the other money
columns, applied just before the CSV write, is a separate step
(roundDateAggRow). -/
def mkDateAggRow (rows : List SpendRow) (k : Option Date) : DateAggRow :=
  let g := rowsOfDate rows k
  let revenue := (g.map (fun r => r.item_total_without_tax.getD 0)).sum
  let pe := (g.map (fun r => r.total_expense.getD 0)).sum
  let qty := (g.map (fun r => r.item_quantity.getD 0)).sum
  let profitBA := (g.map (fun r => r.profit_before_ads.getD 0)).sum
  let fb := (g.head?.map (fun r => r.fb_ads_daily_spend)).getD 0
  let google := (g.head?.map (fun r => r.google_ads_daily_spend)).getD 0
  let unique := ((g.map (fun r => r.order_num)).dedup).length
  let totalItems := (g.filter (fun r => r.item_label.isSome)).length
  let packaging := (unique : ℚ) * PACKAGING_COST_PER_ORDER
  let fixedDaily :=
    match k with
    | some d => round2 (getDailyFixedCost d.year d.month)
    | none => 0
  let totalCost := pe + fb + google + packaging + fixedDaily
  let netProfit := revenue - totalCost
  { date := k
    total_quantity := qty
    total_revenue := revenue
    product_expense := pe
    profit_before_ads := profitBA
    fb_ads_spend := fb
    google_ads_spend := google
    unique_orders := unique
    total_items := totalItems
    packaging_cost := packaging
    fixed_daily_cost := fixedDaily
    total_cost := totalCost
    net_profit := netProfit
    roi_percent := if totalCost > 0 then round2 (netProfit / totalCost * 100) else 0 }

/-- The date-only aggregation (one row per distinct purchase day; the
final sort by date permutes rows and is irrelevant to the per-row
statements below). -/
def createDateAgg (rows : List SpendRow) : List DateAggRow :=
  (dateKeys rows).map (mkDateAggRow rows)

/-- The final two-decimal rounding of the money columns before the CSV
write. -/
def roundDateAggRow (r : DateAggRow) : DateAggRow :=
  { r with
    total_revenue := round2 r.total_revenue
    product_expense := round2 r.product_expense
    fb_ads_spend := round2 r.fb_ads_spend
    google_ads_spend := round2 r.google_ads_spend
    packaging_cost := round2 r.packaging_cost
    total_cost := round2 r.total_cost
    net_profit := round2 r.net_profit }

/-- The date-only aggregation as written to CSV. -/
def createDateAggRounded (rows : List SpendRow) : List DateAggRow :=
  (createDateAgg rows).map roundDateAggRow

/-- C1: in every per-day aggregation row, the total cost is the sum of
product expense, Facebook spend, Google spend, packaging cost (0.3 EUR
per distinct order of the day) and the daily fixed cost (3000 EUR over
the days of the month, stored rounded to two decimals); the net profit is
revenue minus that total cost; and the ROI percent is net profit over
total cost times 100 (rounded to two decimals) for a positive total cost
and 0 otherwise. -/
def exportRows (fb g : Date → ℚ) : List Order → List SpendRow
  | [] => []
  | o :: os => (flattenOrder o).map (addSpend fb g) ++ exportRows fb g os

/-- Keep the first row of each order number, the model of
drop_duplicates(subset=order_num); seen is the set of keys already
emitted. -/
def dedupByOrderNum : List SpendRow → List String → List SpendRow
  | [], _ => []
  | r :: rs, seen =>
    if r.order_num ∈ seen then dedupByOrderNum rs seen
    else r :: dedupByOrderNum rs (r.order_num :: seen)

/-- The orders_df dataframe: one row per order number.  The script then
sorts it by customer and purchase date; the statements below are
order-insensitive (sums) or model the sorted first row directly as the
stable minimum (firstOrderOf). -/
def ordersDf (rows : List SpendRow) : List SpendRow :=
  dedupByOrderNum rows []

/-- The rows of one customer, in dataframe order. -/
def customerRows (odf : List SpendRow) (c : String) : List SpendRow :=
  odf.filter (fun r => decide (r.customer_email = c))

/-- Model of customer_clv: groupby(customer_email).order_total.sum. -/
def customerCLV (rows : List SpendRow) (c : String) : ℚ :=
  ((customerRows (ordersDf rows) c).map (fun r => r.order_total)).sum

/-- Purchase time of a row: the ordinal of the parsed purchase day
(pandas to_datetime raises on an unparsable date; the default here is
never hit in any statement about parsable data). -/
def purTime (r : SpendRow) : ℕ :=
  ((parsePurDate r.purchase_date).getD ⟨1, 1, 1⟩).toOrdinal

/-- The year_week bucket of a row. -/
def weekKey (r : SpendRow) : ℕ := weekOfOrdinal (purTime r)

/-- The deduplicated order rows of one week. -/
def weekOrders (odf : List SpendRow) (w : ℕ) : List SpendRow :=
  odf.filter (fun r => decide (weekKey r = w))

/-- The distinct customers ordering in one week. -/
def weekCustomers (odf : List SpendRow) (w : ℕ) : List String :=
  ((weekOrders odf w).map (fun r => r.customer_email)).dedup

/-- The accumulator step of the earliest-order scan: keep the earlier
purchase time, the earlier position on a tie. -/
def pickEarlier (acc : Option SpendRow) (r : SpendRow) : Option SpendRow :=
  match acc with
  | none => some r
  | some b => if purTime r < purTime b then some r else some b

/-- The first order row of a customer: iloc[0] of the customer's rows
after the stable sort by purchase date, i.e. the earliest-time row with
ties broken by position. -/
def firstOrderOf (odf : List SpendRow) (c : String) : Option SpendRow :=
  (customerRows odf c).foldl pickEarlier none

/-- The new_customers count of the weekly loop: customers of the week
whose first order row lies in the week itself. -/
def newCustomersCount (odf : List SpendRow) (w : ℕ) : ℕ :=
  (weekCustomers odf w).countP
    (fun c =>
      match firstOrderOf odf c with
      | some r => decide (weekKey r = w)
      | none => false)

/-- The Facebook spend attributed to a week: the sum of the per-day
spend column over the week's order rows. -/
def weekFbSpend (odf : List SpendRow) (w : ℕ) : ℚ :=
  ((weekOrders odf w).map (fun r => r.fb_ads_daily_spend)).sum

/-- The weekly Customer Acquisition Cost as the script computes it. -/
def weekCAC (odf : List SpendRow) (w : ℕ) : ℚ :=
  if newCustomersCount odf w > 0 then
    round2 (weekFbSpend odf w / (newCustomersCount odf w : ℚ))
  else 0

/-- The count of first-time customers of a week in the words of the spec:
distinct customers one of whose earliest orders (minimal purchase time)
falls in that week. -/
def firstTimeCount (odf : List SpendRow) (w : ℕ) : ℕ :=
  ((odf.map (fun r => r.customer_email)).dedup).countP
    (fun c => decide (∃ r ∈ customerRows odf c, weekKey r = w ∧
        ∀ x ∈ customerRows odf c, purTime r ≤ purTime x))

/-! The fetch pipeline of fetch_orders (claims C5 and C6) and the bulk
pagination loop of fetch_all_orders_bulk (claim C7). -/

/-- The excluded order statuses of _filter_by_status. -/
def excludedStatuses : List String :=
  ["Storno",
   "Platba online - platnosť vypršala",
   "Platba online - platba zamietnutá",
   "Čaká na úhradu",
   "GoPay - platebni metoda potvrzena"]

/-- Model of _filter_by_status: drop orders whose status name is in the
excluded list. -/
def filterByStatus (orders : List Order) : List Order :=
  orders.filter (fun o => decide (o.status.name ∉ excludedStatuses))

/-- The cache_days_threshold of the exporter: days within this distance
of today are always fetched fresh. -/
def cacheDaysThreshold : ℤ := 7

/-- Two-digit zero padding (strftime %m, %d). -/
def pad2 (n : ℕ) : String :=
  if n < 10 then "0" ++ toString n else toString n

/-- Four-digit zero padding (strftime %Y). -/
def pad4 (n : ℕ) : String :=
  if n < 10 then "000" ++ toString n
  else if n < 100 then "00" ++ toString n
  else if n < 1000 then "0" ++ toString n
  else toString n

/-- The YYYY-MM-DD print of a date (strftime). -/
def Date.toIso (d : Date) : String :=
  pad4 d.year ++ "-" ++ pad2 d.month ++ "-" ++ pad2 d.day

/-- The cache file name of a day (get_cache_filename). -/
def cacheFileName (d : Date) : String := "orders_" ++ d.toIso ++ ".json"

/-- The days_ago of a date relative to today, both normalized to
midnight: the difference of ordinals. -/
def daysAgo (today d : Date) : ℤ :=
  (today.toOrdinal : ℤ) - (d.toOrdinal : ℤ)

/-- Model of should_use_cache: a day within the threshold of today is
always fetched fresh; an older day uses the cache exactly when its cache
file exists (cacheExists is the file-existence predicate on names). -/
def shouldUseCache (today : Date) (cacheExists : String → Bool)
    (d : Date) : Bool :=
  if daysAgo today d ≤ cacheDaysThreshold then false
  else cacheExists (cacheFileName d)

/-- The first pass of fetch_orders over the days of the range: the cached
orders collected in day order, and the days still to fetch.  A day whose
cache file exists but loads as empty or unreadable (cacheLoad none) falls
through to the fetch list, as in the source. -/
def cachePhase (today : Date) (cacheExists : String → Bool)
    (cacheLoad : Date → Option (List Order)) :
    List Date → List Order × List Date
  | [] => ([], [])
  | d :: ds =>
    if shouldUseCache today cacheExists d then
      match cacheLoad d with
      | some os =>
        if os.isEmpty then
          ((cachePhase today cacheExists cacheLoad ds).1,
           d :: (cachePhase today cacheExists cacheLoad ds).2)
        else
          (os ++ (cachePhase today cacheExists cacheLoad ds).1,
           (cachePhase today cacheExists cacheLoad ds).2)
      | none =>
        ((cachePhase today cacheExists cacheLoad ds).1,
         d :: (cachePhase today cacheExists cacheLoad ds).2)
    else
      ((cachePhase today cacheExists cacheLoad ds).1,
       d :: (cachePhase today cacheExists cacheLoad ds).2)

/-- The per-day bucket of API orders (orders_by_date): the bulk orders
whose parsed purchase day is the given requested day.  The batched bulk
fetching is modelled by the single list apiOrders, the concatenation of
the pages the batch loop consumed. -/
def ordersByDate (apiOrders : List Order) (toFetch : List Date)
    (d : Date) : List Order :=
  apiOrders.filter (fun o =>
    decide (parsePurDate o.pur_date = some d) && decide (d ∈ toFetch))

/-- The per-day validation of fetch_orders: status filtering followed by
the check that each order's parsed purchase day equals the bucket day. -/
def validatedDay (apiOrders : List Order) (toFetch : List Date)
    (d : Date) : List Order :=
  (filterByStatus (ordersByDate apiOrders toFetch d)).filter
    (fun o => decide (parsePurDate o.pur_date = some d))

/-- Model of fetch_orders: the cached orders of the range, then the
validated fetched orders of each uncached day, all filtered to the
requested range by parsed purchase day; paired with the cache writes
(day, orders) performed through save_to_cache_simple. -/
def fetchOrders (today : Date) (cacheExists : String → Bool)
    (cacheLoad : Date → Option (List Order)) (apiOrders : List Order)
    (dateFrom dateTo : Date) :
    List Order × List (Date × List Order) :=
  let days := dateRange dateFrom dateTo
  let phase1 := cachePhase today cacheExists cacheLoad days
  let fetchedPerDay := phase1.2.map
    (fun d => (d, validatedDay apiOrders phase1.2 d))
  let allOrders := phase1.1 ++ (fetchedPerDay.map Prod.snd).flatten
  let writes := fetchedPerDay.filter
    (fun p => decide (daysAgo today p.1 > cacheDaysThreshold))
  let finalOrders := allOrders.filter (fun o =>
    match parsePurDate o.pur_date with
    | some pd => decide (dateFrom.toOrdinal ≤ pd.toOrdinal)
        && decide (pd.toOrdinal ≤ dateTo.toOrdinal)
    | none => false)
  (finalOrders, writes)

/-- One page of the paginated getOrderList response: the data list and
the pageInfo fields the source reads. -/
structure Page where
  data : List Order
  hasNextPage : Bool
  nextCursor : Option String
deriving DecidableEq, Repr

/-- An observable event of the bulk fetch loop: an API call (by global
call index) or a sleep of a number of seconds. -/
inductive FetchEv where
  | call (n : ℕ)
  | sleep (secs : ℕ)
deriving DecidableEq, Repr

/-- MAX_RETRIES of the bulk fetch loop. -/
def maxRetries : ℕ := 3

/-- The retry loop around one paginated query: n remaining attempts and
the global call counter k; the oracle resp gives the outcome of each call
(none models a raised exception).  Returns the page (none when every
attempt failed), the next call counter, and the trace: the calls made,
with the fixed 2-second sleep between consecutive attempts. -/
def tryExecute (resp : ℕ → Option Page) : ℕ → ℕ → Option Page × ℕ × List FetchEv
  | 0, k => (none, k, [])
  | n + 1, k =>
    match resp k with
    | some p => (some p, k + 1, [FetchEv.call k])
    | none =>
      if n = 0 then (none, k + 1, [FetchEv.call k])
      else
        let r := tryExecute resp n (k + 1)
        (r.1, r.2.1, FetchEv.call k :: FetchEv.sleep 2 :: r.2.2)

/-- The while loop of fetch_all_orders_bulk: accumulated orders, cursor
and has_next_page state; a page whose three attempts all fail ends the
loop with the orders accumulated so far (no exception escapes).  fuel
bounds the number of iterations, the standard embedding of the unbounded
while loop. -/
def bulkLoop (resp : ℕ → Option Page) (maxOrders : ℕ) :
    ℕ → ℕ → List Order → Option String → Bool →
      List Order × Option String × List FetchEv
  | 0, _, acc, cursor, _ => (acc, cursor, [])
  | fuel + 1, k, acc, cursor, hasNext =>
    if hasNext && decide (acc.length < maxOrders) then
      match tryExecute resp maxRetries k with
      | (none, _, evs) => (acc, cursor, evs)
      | (some p, k2, evs) =>
        let acc2 := acc ++ p.data
        let hn := if maxOrders ≤ acc2.length then false else p.hasNextPage
        let rest := bulkLoop resp maxOrders fuel k2 acc2 p.nextCursor hn
        (rest.1, rest.2.1, evs ++ rest.2.2)
    else (acc, cursor, [])

/-- Model of fetch_all_orders_bulk: the loop from an empty accumulator
and the start cursor. -/
def fetchAllOrdersBulk (resp : ℕ → Option Page) (fuel maxOrders : ℕ)
    (startCursor : Option String) :
    List Order × Option String × List FetchEv :=
  bulkLoop resp maxOrders fuel 0 [] startCursor true

/-- A reference day used by the fetch statements: 2024-03-01 as today. -/
def cexToday : Date := ⟨2024, 3, 1⟩

/-- A cached day well past the freshness window: 2024-01-10. -/
def cexDay : Date := ⟨2024, 1, 10⟩

/-- A sample address for witnesses. -/
def sampleAddress : Address := ⟨"Hlavna 1", "", "", "Bratislava", "81101", "SK"⟩

/-- A sample customer for witnesses. -/
def sampleCustomer : Customer :=
  ⟨"Jan", "Novak", "", "", "", "jan@example.com", ""⟩

/-- A sample taxed item (20 percent) for witnesses. -/
def sampleItemTaxed : OrderItem :=
  ⟨"Tringelt", "", "", "", 1, 20, 0, "", 0, some ⟨12, "EUR", "12.00"⟩⟩

/-- A sample one-item order for witnesses. -/
def sampleOrder : Order :=
  ⟨"1", "ORD1", "", "2024-01-15 10:22:33", "", "", "", "", ⟨"5", "Nová"⟩,
   sampleCustomer, sampleAddress, none, ⟨12, "EUR", "12.00"⟩,
   [sampleItemTaxed]⟩

/-- A sample order with an empty item list for witnesses. -/
def sampleOrderNoItems : Order :=
  { sampleOrder with order_num := "ORD2", items := [] }

/-- A cancelled order of the cached day: its status is excluded. -/
def stornoOrder : Order :=
  { sampleOrder with
    order_num := "ORD9", pur_date := "2024-01-10", status := ⟨"9", "Storno"⟩ }

/-- A cached order of the cached day with a non-excluded status. -/
def goodCachedOrder : Order :=
  { sampleOrder with order_num := "ORD3", pur_date := "2024-01-10" }

/-- Witness for C2: the one-item sample order yields one row, and the
itemless sample order yields a single row flagged with 0 items. -/
def sampleRows : List SpendRow :=
  (flattenOrder sampleOrder).map (addSpend (fun _ => 5) (fun _ => 2))

/-- The sample day 2024-01-15, the purchase day of the sample order. -/
def sampleDay : Date := ⟨2024, 1, 15⟩

/-- Witness for C1 at the sample rows, whose single group key is the
sample day. -/
theorem daysInMonth_ne_zero (y m : ℕ) : daysInMonth y m ≠ 0 := by
  unfold daysInMonth
  split
  · split <;> simp
  · split <;> simp

/-! The order data model, following the GraphQL selection the script
consumes.  Text fields are plain strings with the empty string for an
absent value; monetary values are rationals. -/

/-- A price object: value, currency code and formatted text. -/
theorem itemRows_length (o : Order) (k : ℕ) (l : List OrderItem) :
    (itemRows o k l).length = l.length := by
  induction l generalizing k with
  | nil => rfl
  | cons a t ih => simp [itemRows, ih]

theorem itemRows_getElem? (o : Order) (k : ℕ) (l : List OrderItem) (i : ℕ) :
    (itemRows o k l)[i]? = (l[i]?).map (fun it => itemRow o (k + i) it) := by
  induction l generalizing k i with
  | nil => simp [itemRows]
  | cons a t ih =>
    cases i with
    | zero => simp [itemRows]
    | succ j =>
      simp only [itemRows, List.getElem?_cons_succ, ih, Nat.add_zero,
        Nat.succ_eq_add_one]
      have hn : k + 1 + j = k + (j + 1) := by omega
      rw [hn]

theorem itemRows_mem (o : Order) (k : ℕ) (l : List OrderItem) (r : FlatRow)
    (h : r ∈ itemRows o k l) : ∃ j it, it ∈ l ∧ r = itemRow o j it := by
  induction l generalizing k with
  | nil => simp [itemRows] at h
  | cons a t ih =>
    rcases List.mem_cons.mp h with h1 | h1
    · exact ⟨k, a, List.mem_cons_self a t, h1⟩
    · obtain ⟨j, it, hmem, hr⟩ := ih (k + 1) h1
      exact ⟨j, it, List.mem_cons_of_mem a hmem, hr⟩

/-- C10: over a whole month, the per-day fixed costs add back up to the
fixed monthly cost of 3000 EUR, because each of the daysInMonth days is
assigned FIXED_MONTHLY_COST / daysInMonth. -/
theorem sum_getDailyFixedCost_eq_monthly (y m : ℕ) (_h1 : 1 ≤ m) (_h2 : m ≤ 12) :
    ∑ _d ∈ Finset.range (daysInMonth y m), getDailyFixedCost y m
      = FIXED_MONTHLY_COST := by
  have hne : ((daysInMonth y m : ℚ)) ≠ 0 :=
    Nat.cast_ne_zero.mpr (daysInMonth_ne_zero y m)
  rw [Finset.sum_const, Finset.card_range, nsmul_eq_mul, getDailyFixedCost]
  field_simp

/-- Witness for C10 at February 2024 (a leap month of 29 days). -/
theorem sum_getDailyFixedCost_eq_monthly_witness :
    (1 ≤ 2 ∧ 2 ≤ 12) ∧
      ∑ _d ∈ Finset.range (daysInMonth 2024 2), getDailyFixedCost 2024 2
        = FIXED_MONTHLY_COST :=
  ⟨by decide, sum_getDailyFixedCost_eq_monthly 2024 2 (by decide) (by decide)⟩

/-- C2: flatten_order yields one row per item, every row carries the
denormalized order-level fields (order identity, customer, addresses,
status, order totals), and an order without items yields exactly one row
with total_items_in_order 0 and item_number none. -/
theorem flattenOrder_row_shape (o : Order) :
    (o.items ≠ [] → (flattenOrder o).length = o.items.length) ∧
    (∀ r ∈ flattenOrder o,
      r.order_id = o.id ∧
      r.order_num = o.order_num ∧
      r.purchase_date = o.pur_date ∧
      r.status_id = o.status.id ∧
      r.status_name = o.status.name ∧
      r.customer_name = customerDisplayName o.customer ∧
      r.customer_email = o.customer.email ∧
      r.customer_phone = o.customer.phone ∧
      r.invoice_street = o.invoice_address.street ∧
      r.invoice_city = o.invoice_address.city ∧
      r.invoice_zip = o.invoice_address.zip ∧
      r.invoice_country = o.invoice_address.country ∧
      r.delivery_street = o.delivery_address.map Address.street ∧
      r.delivery_city = o.delivery_address.map Address.city ∧
      r.delivery_zip = o.delivery_address.map Address.zip ∧
      r.delivery_country = o.delivery_address.map Address.country ∧
      r.order_total_original = o.sum.value ∧
      r.order_total = convertToEur o.sum.value (effOrderCurrency o) ∧
      r.order_currency = effOrderCurrency o ∧
      r.total_items_in_order = o.items.length) ∧
    (o.items = [] → ∃ r, flattenOrder o = [r] ∧ r.total_items_in_order = 0 ∧
      r.item_number = none) := by
  refine ⟨?_, ?_, ?_⟩
  · intro h
    unfold flattenOrder
    rw [if_neg (by simpa using h)]
    exact itemRows_length o 1 o.items
  · intro r hr
    unfold flattenOrder at hr
    by_cases he : o.items.isEmpty
    · rw [if_pos he] at hr
      rcases List.mem_singleton.mp hr with rfl
      exact ⟨rfl, rfl, rfl, rfl, rfl, rfl, rfl, rfl, rfl, rfl, rfl, rfl,
        rfl, rfl, rfl, rfl, rfl, rfl, rfl, rfl⟩
    · rw [if_neg he] at hr
      obtain ⟨j, it, _, rfl⟩ := itemRows_mem o 1 o.items r hr
      exact ⟨rfl, rfl, rfl, rfl, rfl, rfl, rfl, rfl, rfl, rfl, rfl, rfl,
        rfl, rfl, rfl, rfl, rfl, rfl, rfl, rfl⟩
  · intro h
    refine ⟨baseRow o, ?_, ?_, rfl⟩
    · unfold flattenOrder
      rw [if_pos (by simp [h])]
    · show o.items.length = 0
      rw [h]
      rfl

/-- C3: in every flattened item row, for a positive tax rate the stored
without-tax total is the with-tax total divided by (1 + rate/100) and the
stored tax amount is their difference (each under the two-decimal rounding
the script applies to the stored values); for a rate of 0 or less the
without-tax total equals the with-tax total and the tax amount is 0. -/
theorem flattenOrder_tax_backout (o : Order) (i : ℕ) (it : OrderItem)
    (hit : o.items[i]? = some it) :
    ∃ r, (flattenOrder o)[i]? = some r ∧
      r.item_total_with_tax =
        some (round2 (itemTotalWithTax (effOrderCurrency o) it)) ∧
      (it.tax_rate > 0 →
        r.item_total_without_tax =
          some (round2 (itemTotalWithTax (effOrderCurrency o) it /
            (1 + it.tax_rate / 100))) ∧
        r.item_tax_amount =
          some (round2 (itemTotalWithTax (effOrderCurrency o) it -
            itemTotalWithTax (effOrderCurrency o) it /
              (1 + it.tax_rate / 100)))) ∧
      (it.tax_rate ≤ 0 →
        r.item_total_without_tax = r.item_total_with_tax ∧
        r.item_tax_amount = some 0) := by
  have hne : ¬ o.items.isEmpty = true := by
    intro hemp
    rw [List.isEmpty_iff] at hemp
    rw [hemp] at hit
    simp at hit
  refine ⟨itemRow o (1 + i) it, ?_, rfl, ?_, ?_⟩
  · unfold flattenOrder
    rw [if_neg hne, itemRows_getElem? o 1 o.items i, hit]
    rfl
  · intro hpos
    constructor
    · show some (round2 (itemTotalWithoutTax (effOrderCurrency o) it)) = _
      rw [itemTotalWithoutTax, if_pos hpos]
    · show some (round2 (itemTaxAmount (effOrderCurrency o) it)) = _
      rw [itemTaxAmount, if_pos hpos, itemTotalWithoutTax, if_pos hpos]
  · intro hle
    have hnp : ¬ it.tax_rate > 0 := not_lt.mpr hle
    constructor
    · show some (round2 (itemTotalWithoutTax (effOrderCurrency o) it)) =
        some (round2 (itemTotalWithTax (effOrderCurrency o) it))
      rw [itemTotalWithoutTax, if_neg hnp]
    · show some (round2 (itemTaxAmount (effOrderCurrency o) it)) = some 0
      rw [itemTaxAmount, if_neg hnp]
      norm_num [round2]

/-! The tabular aggregation of create_aggregated_reports, claim C1: the
date-only grouping.  The dataframe rows are the flattened rows extended
with the per-day ad-spend columns merged in by export_to_csv. -/

/-- A flattened row extended with the per-day ad-spend columns.  The
spend maps are keyed here by the parsed calendar day rather than by its
YYYY-MM-DD string key, a bijective renaming of the dictionary keys. -/
theorem dateAgg_cost_profit_roi (rows : List SpendRow) (ar : DateAggRow)
    (d : Date) (h : ar ∈ createDateAgg rows) (hd : ar.date = some d) :
    ar.packaging_cost =
      ((((rowsOfDate rows (some d)).map (fun r => r.order_num)).dedup).length : ℚ)
        * PACKAGING_COST_PER_ORDER ∧
    ar.fixed_daily_cost =
      round2 (FIXED_MONTHLY_COST / (daysInMonth d.year d.month : ℚ)) ∧
    ar.total_cost = ar.product_expense + ar.fb_ads_spend + ar.google_ads_spend
      + ar.packaging_cost + ar.fixed_daily_cost ∧
    ar.net_profit = ar.total_revenue - ar.total_cost ∧
    (ar.total_cost > 0 →
      ar.roi_percent = round2 (ar.net_profit / ar.total_cost * 100)) ∧
    (¬ ar.total_cost > 0 → ar.roi_percent = 0) := by
  obtain ⟨k, hk, rfl⟩ := List.mem_map.mp h
  have hkd : k = some d := hd
  subst hkd
  refine ⟨rfl, rfl, rfl, rfl, ?_, ?_⟩
  · intro hpos
    simp only [mkDateAggRow] at hpos ⊢
    rw [if_pos hpos]
  · intro hpos
    simp only [mkDateAggRow] at hpos ⊢
    rw [if_neg hpos]

/-! The CLV / return-time analysis of calculate_clv_and_return_time,
claims C4 and C8. -/

/-- Model of the all_rows loop of export_to_csv followed by the ad-spend
merge: the flattened rows of all orders, in order. -/
theorem flattenOrder_row_shape_witness :
    (sampleOrder.items ≠ [] ∧
      (flattenOrder sampleOrder).length = sampleOrder.items.length) ∧
    (sampleOrderNoItems.items = [] ∧
      ∃ r, flattenOrder sampleOrderNoItems = [r] ∧
        r.total_items_in_order = 0 ∧ r.item_number = none) :=
  ⟨⟨by simp [sampleOrder], (flattenOrder_row_shape sampleOrder).1
      (by simp [sampleOrder])⟩,
   ⟨rfl, (flattenOrder_row_shape sampleOrderNoItems).2.2 rfl⟩⟩

/-- Witness for C3 at the sample order, whose single item carries a 20
percent tax rate. -/
theorem flattenOrder_tax_backout_witness :
    sampleOrder.items[0]? = some sampleItemTaxed ∧
    ∃ r, (flattenOrder sampleOrder)[0]? = some r ∧
      r.item_total_with_tax =
        some (round2 (itemTotalWithTax (effOrderCurrency sampleOrder)
          sampleItemTaxed)) ∧
      (sampleItemTaxed.tax_rate > 0 →
        r.item_total_without_tax =
          some (round2 (itemTotalWithTax (effOrderCurrency sampleOrder)
            sampleItemTaxed / (1 + sampleItemTaxed.tax_rate / 100))) ∧
        r.item_tax_amount =
          some (round2 (itemTotalWithTax (effOrderCurrency sampleOrder)
            sampleItemTaxed -
            itemTotalWithTax (effOrderCurrency sampleOrder) sampleItemTaxed /
              (1 + sampleItemTaxed.tax_rate / 100)))) ∧
      (sampleItemTaxed.tax_rate ≤ 0 →
        r.item_total_without_tax = r.item_total_with_tax ∧
        r.item_tax_amount = some 0) :=
  ⟨rfl, flattenOrder_tax_backout sampleOrder 0 sampleItemTaxed rfl⟩

/-- Sample aggregation input for the C1 witness: the flattened sample
order with constant ad spends of 5 and 2 EUR per day. -/
theorem dateAgg_cost_profit_roi_witness :
    (mkDateAggRow sampleRows (some sampleDay)).packaging_cost =
      ((((rowsOfDate sampleRows (some sampleDay)).map
          (fun r => r.order_num)).dedup).length : ℚ)
        * PACKAGING_COST_PER_ORDER ∧
    (mkDateAggRow sampleRows (some sampleDay)).fixed_daily_cost =
      round2 (FIXED_MONTHLY_COST /
        (daysInMonth sampleDay.year sampleDay.month : ℚ)) ∧
    (mkDateAggRow sampleRows (some sampleDay)).total_cost =
      (mkDateAggRow sampleRows (some sampleDay)).product_expense
      + (mkDateAggRow sampleRows (some sampleDay)).fb_ads_spend
      + (mkDateAggRow sampleRows (some sampleDay)).google_ads_spend
      + (mkDateAggRow sampleRows (some sampleDay)).packaging_cost
      + (mkDateAggRow sampleRows (some sampleDay)).fixed_daily_cost ∧
    (mkDateAggRow sampleRows (some sampleDay)).net_profit =
      (mkDateAggRow sampleRows (some sampleDay)).total_revenue
      - (mkDateAggRow sampleRows (some sampleDay)).total_cost ∧
    ((mkDateAggRow sampleRows (some sampleDay)).total_cost > 0 →
      (mkDateAggRow sampleRows (some sampleDay)).roi_percent =
        round2 ((mkDateAggRow sampleRows (some sampleDay)).net_profit /
          (mkDateAggRow sampleRows (some sampleDay)).total_cost * 100)) ∧
    (¬ (mkDateAggRow sampleRows (some sampleDay)).total_cost > 0 →
      (mkDateAggRow sampleRows (some sampleDay)).roi_percent = 0) :=
  dateAgg_cost_profit_roi sampleRows
    (mkDateAggRow sampleRows (some sampleDay)) sampleDay
    (by have hkeys : dateKeys sampleRows = [some sampleDay] := rfl
        show mkDateAggRow sampleRows (some sampleDay)
          ∈ (dateKeys sampleRows).map (mkDateAggRow sampleRows)
        rw [hkeys]
        simp)
    rfl

theorem flattenOrder_ne_nil (o : Order) : flattenOrder o ≠ [] := by
  unfold flattenOrder
  by_cases he : o.items.isEmpty
  · rw [if_pos he]
    simp
  · rw [if_neg he]
    cases hi : o.items with
    | nil =>
      rw [List.isEmpty_iff] at he
      exact absurd hi he
    | cons a t =>
      simp [itemRows]

theorem flattenOrder_core_fields (o : Order) (r : FlatRow)
    (hr : r ∈ flattenOrder o) :
    r.order_num = o.order_num ∧ r.customer_email = o.customer.email ∧
      r.order_total = convertToEur o.sum.value (effOrderCurrency o) := by
  unfold flattenOrder at hr
  by_cases he : o.items.isEmpty
  · rw [if_pos he] at hr
    rcases List.mem_singleton.mp hr with rfl
    exact ⟨rfl, rfl, rfl⟩
  · rw [if_neg he] at hr
    obtain ⟨j, it, _, rfl⟩ := itemRows_mem o 1 o.items r hr
    exact ⟨rfl, rfl, rfl⟩

theorem dedup_drop (l rest : List SpendRow) (seen : List String)
    (h : ∀ r ∈ l, r.order_num ∈ seen) :
    dedupByOrderNum (l ++ rest) seen = dedupByOrderNum rest seen := by
  induction l with
  | nil => rfl
  | cons r t ih =>
    simp only [List.cons_append, dedupByOrderNum]
    rw [if_pos (h r (List.mem_cons_self r t))]
    exact ih (fun x hx => h x (List.mem_cons_of_mem r hx))

theorem dedup_keep_head (r0 : SpendRow) (rs rest : List SpendRow)
    (seen : List String) (key : String) (hkey : r0.order_num = key)
    (hall : ∀ x ∈ rs, x.order_num = key) (hnot : key ∉ seen) :
    dedupByOrderNum ((r0 :: rs) ++ rest) seen
      = r0 :: dedupByOrderNum rest (key :: seen) := by
  simp only [List.cons_append, dedupByOrderNum]
  rw [hkey, if_neg hnot]
  congr 1
  exact dedup_drop rs rest (key :: seen)
    (fun x hx => by rw [hall x hx]; exact List.mem_cons_self key seen)

theorem clv_aux (fb g : Date → ℚ) (c : String) :
    ∀ (orders : List Order) (seen : List String),
      (∀ o ∈ orders, o.order_num ∉ seen) →
      ((orders.map (fun o => o.order_num)).Nodup) →
      ((customerRows (dedupByOrderNum (exportRows fb g orders) seen) c).map
          (fun r => r.order_total)).sum
        = ((orders.filter (fun o => decide (o.customer.email = c))).map
            (fun o => convertToEur o.sum.value (effOrderCurrency o))).sum
  | [], _, _, _ => rfl
  | o :: os, seen, hseen, hnodup => by
    obtain ⟨r0, rs, hsplit⟩ : ∃ r0 rs,
        (flattenOrder o).map (addSpend fb g) = r0 :: rs := by
      cases hf : flattenOrder o with
      | nil => exact absurd hf (flattenOrder_ne_nil o)
      | cons a t => exact ⟨addSpend fb g a, t.map (addSpend fb g), rfl⟩
    have hmem : ∀ x ∈ r0 :: rs, ∃ y ∈ flattenOrder o, x = addSpend fb g y := by
      rw [← hsplit]
      intro x hx
      obtain ⟨y, hy, rfl⟩ := List.mem_map.mp hx
      exact ⟨y, hy, rfl⟩
    have hkeys : ∀ x ∈ r0 :: rs, x.order_num = o.order_num := by
      intro x hx
      obtain ⟨y, hy, rfl⟩ := hmem x hx
      exact (flattenOrder_core_fields o y hy).1
    have hr0mail : r0.customer_email = o.customer.email := by
      obtain ⟨y, hy, heq⟩ := hmem r0 (List.mem_cons_self r0 rs)
      rw [heq]
      exact (flattenOrder_core_fields o y hy).2.1
    have hr0total : r0.order_total
        = convertToEur o.sum.value (effOrderCurrency o) := by
      obtain ⟨y, hy, heq⟩ := hmem r0 (List.mem_cons_self r0 rs)
      rw [heq]
      exact (flattenOrder_core_fields o y hy).2.2
    have hONotSeen : o.order_num ∉ seen := hseen o (List.mem_cons_self o os)
    have hexp : exportRows fb g (o :: os) = (r0 :: rs) ++ exportRows fb g os := by
      simp only [exportRows]
      rw [hsplit]
    have hseen2 : ∀ o2 ∈ os, o2.order_num ∉ o.order_num :: seen := by
      intro o2 ho2 hmem2
      rcases List.mem_cons.mp hmem2 with heq | hin
      · have hn1 : o.order_num ∈ os.map (fun x => x.order_num) :=
          heq ▸ List.mem_map_of_mem (fun x => x.order_num) ho2
        exact (List.nodup_cons.mp hnodup).1 hn1
      · exact hseen o2 (List.mem_cons_of_mem o ho2) hin
    have IH := clv_aux fb g c os (o.order_num :: seen) hseen2
      (List.nodup_cons.mp hnodup).2
    rw [hexp, dedup_keep_head r0 rs (exportRows fb g os) seen o.order_num
      (hkeys r0 (List.mem_cons_self r0 rs))
      (fun x hx => hkeys x (List.mem_cons_of_mem r0 hx)) hONotSeen]
    by_cases hc : o.customer.email = c
    · have h1 : customerRows
          (r0 :: dedupByOrderNum (exportRows fb g os) (o.order_num :: seen)) c
          = r0 :: customerRows
              (dedupByOrderNum (exportRows fb g os) (o.order_num :: seen)) c := by
        simp [customerRows, List.filter_cons, hr0mail, hc]
      have h2 : (o :: os).filter (fun x => decide (x.customer.email = c))
          = o :: os.filter (fun x => decide (x.customer.email = c)) := by
        simp [List.filter_cons, hc]
      rw [h1, h2]
      simp only [List.map_cons, List.sum_cons]
      rw [IH, hr0total]
    · have h1 : customerRows
          (r0 :: dedupByOrderNum (exportRows fb g os) (o.order_num :: seen)) c
          = customerRows
              (dedupByOrderNum (exportRows fb g os) (o.order_num :: seen)) c := by
        simp [customerRows, List.filter_cons, hr0mail, hc]
      have h2 : (o :: os).filter (fun x => decide (x.customer.email = c))
          = os.filter (fun x => decide (x.customer.email = c)) := by
        simp [List.filter_cons, hc]
      rw [h1, h2]
      exact IH

/-- C8: for export rows built from orders with pairwise distinct order
numbers, the CLV of a customer is the sum of the EUR order totals of that
customer's orders, one contribution per order number. -/
theorem customerCLV_spec (orders : List Order) (fb g : Date → ℚ) (c : String)
    (hnodup : (orders.map (fun o => o.order_num)).Nodup) :
    customerCLV (exportRows fb g orders) c
      = ((orders.filter (fun o => decide (o.customer.email = c))).map
          (fun o => convertToEur o.sum.value (effOrderCurrency o))).sum :=
  clv_aux fb g c orders [] (by simp) hnodup

/-- Witness for C8: both sample orders belong to the sample customer, so
the CLV is the sum of both EUR order totals. -/
theorem customerCLV_spec_witness :
    customerCLV (exportRows (fun _ => 5) (fun _ => 2)
        [sampleOrder, sampleOrderNoItems]) "jan@example.com"
      = (([sampleOrder, sampleOrderNoItems].filter
          (fun o => decide (o.customer.email = "jan@example.com"))).map
          (fun o => convertToEur o.sum.value (effOrderCurrency o))).sum :=
  customerCLV_spec [sampleOrder, sampleOrderNoItems] (fun _ => 5) (fun _ => 2)
    "jan@example.com" (by decide)

theorem foldl_pickEarlier_some (l : List SpendRow) (b : SpendRow) :
    ∃ r, l.foldl pickEarlier (some b) = some r ∧ (r = b ∨ r ∈ l) ∧
      purTime r ≤ purTime b ∧ ∀ x ∈ l, purTime r ≤ purTime x := by
  induction l generalizing b with
  | nil => exact ⟨b, rfl, Or.inl rfl, le_refl _, by simp⟩
  | cons a t ih =>
    simp only [List.foldl_cons]
    by_cases hab : purTime a < purTime b
    · have hstep : pickEarlier (some b) a = some a := by
        simp [pickEarlier, hab]
      rw [hstep]
      obtain ⟨r, heq, hor, hle, hall⟩ := ih a
      refine ⟨r, heq, ?_, le_trans hle (le_of_lt hab), ?_⟩
      · rcases hor with h | h
        · exact Or.inr (h ▸ List.mem_cons_self a t)
        · exact Or.inr (List.mem_cons_of_mem a h)
      · intro x hx
        rcases List.mem_cons.mp hx with rfl | hx2
        · exact hle
        · exact hall x hx2
    · have hstep : pickEarlier (some b) a = some b := by
        simp [pickEarlier, hab]
      rw [hstep]
      obtain ⟨r, heq, hor, hle, hall⟩ := ih b
      refine ⟨r, heq, ?_, hle, ?_⟩
      · rcases hor with h | h
        · exact Or.inl h
        · exact Or.inr (List.mem_cons_of_mem a h)
      · intro x hx
        rcases List.mem_cons.mp hx with rfl | hx2
        · exact le_trans hle (not_lt.mp hab)
        · exact hall x hx2

theorem firstOrderOf_min (odf : List SpendRow) (c : String) :
    (customerRows odf c = [] ∧ firstOrderOf odf c = none) ∨
    (∃ r, firstOrderOf odf c = some r ∧ r ∈ customerRows odf c ∧
      ∀ x ∈ customerRows odf c, purTime r ≤ purTime x) := by
  cases hl : customerRows odf c with
  | nil => exact Or.inl ⟨rfl, by simp [firstOrderOf, hl]⟩
  | cons d ds =>
    right
    have hstart : firstOrderOf odf c = ds.foldl pickEarlier (some d) := by
      rw [firstOrderOf, hl]
      rfl
    obtain ⟨r, heq, hor, hle, hall⟩ := foldl_pickEarlier_some ds d
    refine ⟨r, by rw [hstart, heq], ?_, ?_⟩
    · rcases hor with h | h
      · exact h ▸ List.mem_cons_self d ds
      · exact List.mem_cons_of_mem d h
    · intro x hx
      rcases List.mem_cons.mp hx with rfl | hx2
      · exact hle
      · exact hall x hx2

theorem firstOrder_pred_iff (odf : List SpendRow) (w : ℕ) (c : String) :
    (match firstOrderOf odf c with
      | some r => decide (weekKey r = w)
      | none => false) = true ↔
    (∃ r ∈ customerRows odf c, weekKey r = w ∧
      ∀ x ∈ customerRows odf c, purTime r ≤ purTime x) := by
  rcases firstOrderOf_min odf c with ⟨hnil, hnone⟩ | ⟨r, heq, hmem, hmin⟩
  · rw [hnone]
    simp [hnil]
  · rw [heq]
    simp only [decide_eq_true_eq]
    constructor
    · intro hw2
      exact ⟨r, hmem, hw2, hmin⟩
    · rintro ⟨x, hxmem, hxw, hxmin⟩
      have h1 : purTime r = purTime x :=
        le_antisymm (hmin x hxmem) (hxmin r hmem)
      unfold weekKey at hxw ⊢
      rw [h1]
      exact hxw

theorem newCustomers_eq_firstTime (odf : List SpendRow) (w : ℕ) :
    newCustomersCount odf w = firstTimeCount odf w := by
  unfold newCustomersCount firstTimeCount
  have hcongr : ∀ c ∈ weekCustomers odf w,
      ((match firstOrderOf odf c with
        | some r => decide (weekKey r = w)
        | none => false) = true) ↔
      (decide (∃ r ∈ customerRows odf c, weekKey r = w ∧
          ∀ x ∈ customerRows odf c, purTime r ≤ purTime x) = true) := by
    intro c _
    rw [decide_eq_true_eq]
    exact firstOrder_pred_iff odf w c
  rw [List.countP_congr hcongr]
  rw [List.countP_eq_length_filter, List.countP_eq_length_filter]
  apply List.Perm.length_eq
  apply (List.perm_ext_iff_of_nodup
    ((List.nodup_dedup _).filter _) ((List.nodup_dedup _).filter _)).mpr
  intro c
  simp only [List.mem_filter, decide_eq_true_eq]
  constructor
  · rintro ⟨hmemw, hp⟩
    refine ⟨?_, hp⟩
    rw [List.mem_dedup] at hmemw ⊢
    obtain ⟨r, hr, rfl⟩ := List.mem_map.mp hmemw
    exact List.mem_map_of_mem _ (List.mem_of_mem_filter hr)
  · rintro ⟨_, hp⟩
    refine ⟨?_, hp⟩
    obtain ⟨r, hrmem, hrw, _⟩ := hp
    have hrodf : r ∈ odf ∧ r.customer_email = c := by
      have := List.mem_filter.mp hrmem
      exact ⟨this.1, decide_eq_true_eq.mp this.2⟩
    rw [List.mem_dedup]
    refine List.mem_map.mpr ⟨r, ?_, hrodf.2⟩
    exact List.mem_filter.mpr ⟨hrodf.1, decide_eq_true_eq.mpr hrw⟩

/-- C4: the weekly CAC equals the week's ad spend divided by the number
of first-time customers of the week (a first-time customer being one
whose earliest order falls in that week), rounded to two decimals, and 0
when the week has no first-time customers. -/
theorem weekCAC_spec (rows : List SpendRow) (w : ℕ) :
    weekCAC (ordersDf rows) w =
      if firstTimeCount (ordersDf rows) w > 0 then
        round2 (weekFbSpend (ordersDf rows) w
          / (firstTimeCount (ordersDf rows) w : ℚ))
      else 0 := by
  rw [weekCAC, newCustomers_eq_firstTime]

theorem tryExecute_succ (resp : ℕ → Option Page) (n k : ℕ) :
    tryExecute resp (n + 1) k =
      match resp k with
      | some p => (some p, k + 1, [FetchEv.call k])
      | none =>
        if n = 0 then (none, k + 1, [FetchEv.call k])
        else
          ((tryExecute resp n (k + 1)).1,
           (tryExecute resp n (k + 1)).2.1,
           FetchEv.call k :: FetchEv.sleep 2 ::
             (tryExecute resp n (k + 1)).2.2) := rfl

theorem tryExecute_first_some (resp : ℕ → Option Page) (k : ℕ) (p : Page)
    (h : resp k = some p) :
    tryExecute resp maxRetries k = (some p, k + 1, [FetchEv.call k]) := by
  show tryExecute resp (2 + 1) k = _
  rw [tryExecute_succ, h]

theorem tryExecute_second_some (resp : ℕ → Option Page) (k : ℕ) (p : Page)
    (h0 : resp k = none) (h1 : resp (k + 1) = some p) :
    tryExecute resp maxRetries k =
      (some p, k + 2,
       [FetchEv.call k, FetchEv.sleep 2, FetchEv.call (k + 1)]) := by
  show tryExecute resp (2 + 1) k = _
  rw [tryExecute_succ, h0, if_neg (by decide : ¬ (2 : ℕ) = 0)]
  have h2 : tryExecute resp 2 (k + 1) =
      (some p, k + 2, [FetchEv.call (k + 1)]) := by
    show tryExecute resp (1 + 1) (k + 1) = _
    rw [tryExecute_succ, h1]
  rw [h2]

theorem tryExecute_all_fail (resp : ℕ → Option Page) (k : ℕ)
    (h0 : resp k = none) (h1 : resp (k + 1) = none)
    (h2 : resp (k + 2) = none) :
    tryExecute resp maxRetries k =
      (none, k + 3,
       [FetchEv.call k, FetchEv.sleep 2, FetchEv.call (k + 1),
        FetchEv.sleep 2, FetchEv.call (k + 2)]) := by
  show tryExecute resp (2 + 1) k = _
  rw [tryExecute_succ, h0, if_neg (by decide : ¬ (2 : ℕ) = 0)]
  have e2 : tryExecute resp 2 (k + 1) =
      (none, k + 3,
       [FetchEv.call (k + 1), FetchEv.sleep 2, FetchEv.call (k + 2)]) := by
    show tryExecute resp (1 + 1) (k + 1) = _
    rw [tryExecute_succ, h1, if_neg (by decide : ¬ (1 : ℕ) = 0)]
    have e1 : tryExecute resp 1 (k + 1 + 1) =
        (none, k + 3, [FetchEv.call (k + 2)]) := by
      show tryExecute resp (0 + 1) (k + 1 + 1) = _
      have h2b : resp (k + 1 + 1) = none := h2
      rw [tryExecute_succ, h2b, if_pos rfl]
    rw [e1]
  rw [e2]

theorem bulkLoop_succ (resp : ℕ → Option Page) (maxOrders fuel k : ℕ)
    (acc : List Order) (cursor : Option String) (hasNext : Bool) :
    bulkLoop resp maxOrders (fuel + 1) k acc cursor hasNext =
      if hasNext && decide (acc.length < maxOrders) then
        match tryExecute resp maxRetries k with
        | (none, _, evs) => (acc, cursor, evs)
        | (some p, k2, evs) =>
          ((bulkLoop resp maxOrders fuel k2 (acc ++ p.data) p.nextCursor
              (if maxOrders ≤ (acc ++ p.data).length then false
               else p.hasNextPage)).1,
           (bulkLoop resp maxOrders fuel k2 (acc ++ p.data) p.nextCursor
              (if maxOrders ≤ (acc ++ p.data).length then false
               else p.hasNextPage)).2.1,
           evs ++ (bulkLoop resp maxOrders fuel k2 (acc ++ p.data)
              p.nextCursor
              (if maxOrders ≤ (acc ++ p.data).length then false
               else p.hasNextPage)).2.2)
      else (acc, cursor, []) := rfl

theorem bulkLoop_abort (resp : ℕ → Option Page) (maxOrders fuel k : ℕ)
    (acc : List Order) (cursor : Option String)
    (h0 : resp k = none) (h1 : resp (k + 1) = none)
    (h2 : resp (k + 2) = none) (hlen : acc.length < maxOrders) :
    bulkLoop resp maxOrders (fuel + 1) k acc cursor true =
      (acc, cursor,
       [FetchEv.call k, FetchEv.sleep 2, FetchEv.call (k + 1),
        FetchEv.sleep 2, FetchEv.call (k + 2)]) := by
  rw [bulkLoop_succ,
    if_pos (by simp [hlen] : (true && decide (acc.length < maxOrders)) = true),
    tryExecute_all_fail resp k h0 h1 h2]

/-- C7: each paginated query is attempted at most three times, with a
fixed 2-second sleep between consecutive attempts (the three possible
call traces), and when all three attempts of a page fail the loop stops
and returns the orders accumulated from the earlier pages rather than
raising. -/
theorem bulkFetch_retry_spec (resp : ℕ → Option Page)
    (maxOrders fuel k : ℕ) (acc : List Order) (cursor : Option String) :
    (∀ p, resp k = some p →
      tryExecute resp maxRetries k = (some p, k + 1, [FetchEv.call k])) ∧
    (∀ p, resp k = none → resp (k + 1) = some p →
      tryExecute resp maxRetries k =
        (some p, k + 2,
         [FetchEv.call k, FetchEv.sleep 2, FetchEv.call (k + 1)])) ∧
    (resp k = none → resp (k + 1) = none → resp (k + 2) = none →
      tryExecute resp maxRetries k =
        (none, k + 3,
         [FetchEv.call k, FetchEv.sleep 2, FetchEv.call (k + 1),
          FetchEv.sleep 2, FetchEv.call (k + 2)])) ∧
    (resp k = none → resp (k + 1) = none → resp (k + 2) = none →
      acc.length < maxOrders →
      bulkLoop resp maxOrders (fuel + 1) k acc cursor true =
        (acc, cursor,
         [FetchEv.call k, FetchEv.sleep 2, FetchEv.call (k + 1),
          FetchEv.sleep 2, FetchEv.call (k + 2)])) ∧
    (resp 0 = none → resp 1 = none → resp 2 = none → 0 < maxOrders →
      fetchAllOrdersBulk resp (fuel + 1) maxOrders cursor =
        ([], cursor,
         [FetchEv.call 0, FetchEv.sleep 2, FetchEv.call 1,
          FetchEv.sleep 2, FetchEv.call 2])) := by
  refine ⟨?_, ?_, ?_, ?_, ?_⟩
  · intro p h
    exact tryExecute_first_some resp k p h
  · intro p h0 h1
    exact tryExecute_second_some resp k p h0 h1
  · intro h0 h1 h2
    exact tryExecute_all_fail resp k h0 h1 h2
  · intro h0 h1 h2 hlen
    exact bulkLoop_abort resp maxOrders fuel k acc cursor h0 h1 h2 hlen
  · intro h0 h1 h2 hm
    exact bulkLoop_abort resp maxOrders fuel 0 [] cursor h0 h1 h2
      (by simpa using hm)

/-- Witness for C7: an oracle that always fails yields the 3-attempt
trace with 2-second sleeps and returns the empty accumulation. -/
theorem bulkFetch_retry_spec_witness :
    fetchAllOrdersBulk (fun _ => none) 1 900 none =
      ([], none,
       [FetchEv.call 0, FetchEv.sleep 2, FetchEv.call 1,
        FetchEv.sleep 2, FetchEv.call 2]) :=
  (bulkFetch_retry_spec (fun _ => none) 900 0 0 [] none).2.2.2.2
    rfl rfl rfl (by decide)

theorem filterByStatus_mem (l : List Order) (o : Order)
    (h : o ∈ filterByStatus l) : o.status.name ∉ excludedStatuses :=
  of_decide_eq_true (List.mem_filter.mp h).2

theorem cachePhase_cached_mem (today : Date) (ce : String → Bool)
    (cl : Date → Option (List Order)) :
    ∀ (days : List Date) (o : Order),
      o ∈ (cachePhase today ce cl days).1 →
      ∃ d os, cl d = some os ∧ o ∈ os
  | [], o, h => by simp [cachePhase] at h
  | d :: ds, o, h => by
    by_cases hs : shouldUseCache today ce d = true
    · cases hcl : cl d with
      | none =>
        simp only [cachePhase, hs, hcl, if_true] at h
        exact cachePhase_cached_mem today ce cl ds o h
      | some os =>
        by_cases he : os.isEmpty
        · simp only [cachePhase, hs, hcl, he, if_true] at h
          exact cachePhase_cached_mem today ce cl ds o h
        · simp only [cachePhase, hs, hcl, he, if_true, if_false,
            Bool.false_eq_true] at h
          rcases List.mem_append.mp h with h2 | h2
          · exact ⟨d, os, hcl, h2⟩
          · exact cachePhase_cached_mem today ce cl ds o h2
    · simp only [cachePhase, hs, Bool.false_eq_true, if_false] at h
      exact cachePhase_cached_mem today ce cl ds o h

theorem fetchOrders_writes_old (today : Date) (ce : String → Bool)
    (cl : Date → Option (List Order)) (api : List Order) (a b : Date) :
    ∀ p ∈ (fetchOrders today ce cl api a b).2,
      daysAgo today p.1 > cacheDaysThreshold := by
  intro p hp
  unfold fetchOrders at hp
  exact of_decide_eq_true (List.mem_filter.mp hp).2

/-- C6: a day within 7 days of today is never served from cache; a day
more than 7 days in the past is served from cache exactly when its
orders_YYYY-MM-DD.json file exists; and fetch_orders writes a day's cache
only when the day is more than 7 days in the past. -/
theorem cache_policy_spec :
    (∀ (today : Date) (ce : String → Bool) (d : Date),
      daysAgo today d ≤ cacheDaysThreshold →
      shouldUseCache today ce d = false) ∧
    (∀ (today : Date) (ce : String → Bool) (d : Date),
      daysAgo today d > cacheDaysThreshold →
      shouldUseCache today ce d = ce (cacheFileName d)) ∧
    (∀ (today : Date) (ce : String → Bool)
      (cl : Date → Option (List Order)) (api : List Order) (a b : Date)
      (p : Date × List Order),
      p ∈ (fetchOrders today ce cl api a b).2 →
      daysAgo today p.1 > cacheDaysThreshold) := by
  refine ⟨?_, ?_, ?_⟩
  · intro today ce d h
    unfold shouldUseCache
    rw [if_pos h]
  · intro today ce d h
    unfold shouldUseCache
    rw [if_neg (not_le.mpr h)]
  · exact fun today ce cl api a b p hp =>
      fetchOrders_writes_old today ce cl api a b p hp

/-- Witness for C6: a two-day-old date is fetched fresh, the old cached
day is served from its existing cache file, and the single cache write of
a fetch over the old day is more than 7 days in the past. -/
theorem cache_policy_spec_witness :
    (daysAgo cexToday ⟨2024, 2, 28⟩ ≤ cacheDaysThreshold ∧
      shouldUseCache cexToday (fun _ => true) ⟨2024, 2, 28⟩ = false) ∧
    (daysAgo cexToday cexDay > cacheDaysThreshold ∧
      shouldUseCache cexToday (fun _ => true) cexDay =
        (fun _ => true) (cacheFileName cexDay)) ∧
    ((cexDay, ([] : List Order)) ∈
        (fetchOrders cexToday (fun _ => false) (fun _ => none) []
          cexDay cexDay).2 ∧
      daysAgo cexToday cexDay > cacheDaysThreshold) :=
  ⟨⟨by decide, cache_policy_spec.1 cexToday (fun _ => true) ⟨2024, 2, 28⟩
      (by decide)⟩,
   ⟨by decide, cache_policy_spec.2.1 cexToday (fun _ => true) cexDay
      (by decide)⟩,
   ⟨by decide, cache_policy_spec.2.2 cexToday (fun _ => false)
      (fun _ => none) [] cexDay cexDay (cexDay, []) (by decide)⟩⟩

/-- C5 counterexample: fetch_orders does not re-filter cached orders by
status.  With an existing cache file for an old in-range day whose
content is a cancelled (Storno) order, the returned list contains an
order with an excluded status, refuting the claim as stated. -/
theorem fetchOrders_status_counterexample :
    ∃ o ∈ (fetchOrders cexToday (fun _ => true)
        (fun _ => some [stornoOrder]) [] cexDay cexDay).1,
      o.status.name ∈ excludedStatuses := by
  have heq : (fetchOrders cexToday (fun _ => true)
      (fun _ => some [stornoOrder]) [] cexDay cexDay).1 = [stornoOrder] := rfl
  refine ⟨stornoOrder, ?_, ?_⟩
  · rw [heq]
    exact List.mem_singleton.mpr rfl
  · show "Storno" ∈ excludedStatuses
    decide

/-- C5 (amended): every order returned by fetch_orders has a purchase
date that parses as YYYY-MM-DD and lies in the inclusive requested range;
orders fetched from the API are furthermore status-filtered, while cached
orders are returned without status re-filtering, so the status exclusion
holds under the hypothesis that every cached day's content already
satisfies it (which is what this program writes to the cache). -/
theorem fetchOrders_range_and_status (today : Date) (ce : String → Bool)
    (cl : Date → Option (List Order)) (api : List Order) (a b : Date)
    (hcache : ∀ d os, cl d = some os →
      ∀ o ∈ os, o.status.name ∉ excludedStatuses) :
    ∀ o ∈ (fetchOrders today ce cl api a b).1,
      (∃ pd, parsePurDate o.pur_date = some pd ∧
        a.toOrdinal ≤ pd.toOrdinal ∧ pd.toOrdinal ≤ b.toOrdinal) ∧
      o.status.name ∉ excludedStatuses := by
  intro o ho
  unfold fetchOrders at ho
  rcases List.mem_filter.mp ho with ⟨hmem, hcond⟩
  constructor
  · cases hp : parsePurDate o.pur_date with
    | none =>
      rw [hp] at hcond
      simp at hcond
    | some pd =>
      rw [hp] at hcond
      simp only [Bool.and_eq_true, decide_eq_true_eq] at hcond
      exact ⟨pd, rfl, hcond.1, hcond.2⟩
  · rcases List.mem_append.mp hmem with hcached | hfetched
    · obtain ⟨d, os, hcl, hos⟩ :=
        cachePhase_cached_mem today ce cl (dateRange a b) o hcached
      exact hcache d os hcl o hos
    · obtain ⟨l, hl, hol⟩ := List.mem_flatten.mp hfetched
      obtain ⟨pr, hpr, rfl⟩ := List.mem_map.mp hl
      obtain ⟨d, _, rfl⟩ := List.mem_map.mp hpr
      unfold validatedDay at hol
      exact filterByStatus_mem _ o (List.mem_of_mem_filter hol)

/-- Witness for the amended C5: with a well-formed cache (non-excluded
status) for the old day, the returned cached order is in range and has a
non-excluded status. -/
theorem fetchOrders_range_and_status_witness :
    (∃ pd, parsePurDate goodCachedOrder.pur_date = some pd ∧
      cexDay.toOrdinal ≤ pd.toOrdinal ∧ pd.toOrdinal ≤ cexDay.toOrdinal) ∧
    goodCachedOrder.status.name ∉ excludedStatuses :=
  fetchOrders_range_and_status cexToday (fun _ => true)
    (fun _ => some [goodCachedOrder]) [] cexDay cexDay
    (by intro d os h o ho
        injection h with h2
        subst h2
        rcases List.mem_singleton.mp ho with rfl
        show "Nová" ∉ excludedStatuses
        decide)
    goodCachedOrder
    (by have heq : (fetchOrders cexToday (fun _ => true)
          (fun _ => some [goodCachedOrder]) [] cexDay cexDay).1
          = [goodCachedOrder] := rfl
        rw [heq]
        exact List.mem_singleton.mpr rfl)

/-- C9: convert_to_eur returns 0 for a zero amount or empty currency,
multiplies by the table rate of the upper-cased code when it is known
(in particular the identity for EUR), and returns the amount unchanged
for a code outside the table. -/
theorem convertToEur_cases (amount : ℚ) (currency : String) :
    ((amount = 0 ∨ currency = "") → convertToEur amount currency = 0) ∧
    (amount ≠ 0 → currency ≠ "" → ∀ r : ℚ,
      CURRENCY_RATES_TO_EUR.lookup (pyUpper currency) = some r →
      convertToEur amount currency = amount * r) ∧
    (amount ≠ 0 → currency ≠ "" →
      CURRENCY_RATES_TO_EUR.lookup (pyUpper currency) = none →
      convertToEur amount currency = amount) ∧
    (amount ≠ 0 → convertToEur amount "EUR" = amount) := by
  refine ⟨?_, ?_, ?_, ?_⟩
  · intro h
    unfold convertToEur
    rcases h with h | h
    · rw [if_pos (Or.inr h)]
    · rw [if_pos (Or.inl h)]
  · intro ha hc r hr
    unfold convertToEur
    rw [if_neg (not_or.mpr ⟨hc, ha⟩), hr]
  · intro ha hc hr
    unfold convertToEur
    rw [if_neg (not_or.mpr ⟨hc, ha⟩), hr]
  · intro ha
    unfold convertToEur
    rw [if_neg (not_or.mpr ⟨by decide, ha⟩)]
    have hup : pyUpper "EUR" = "EUR" := by decide
    have h1 : CURRENCY_RATES_TO_EUR.lookup (pyUpper "EUR") = some 1 := by
      rw [hup]; simp [CURRENCY_RATES_TO_EUR, List.lookup]
    rw [h1]
    exact mul_one amount

/-- Witness for C9: a concrete CZK conversion through the table. -/
theorem convertToEur_cases_witness :
    convertToEur 5 "czk" = 5 * (4/100 : ℚ) :=
  (convertToEur_cases 5 "czk").2.1 (by norm_num) (by decide) (4/100)
    (by have hup : pyUpper "czk" = "CZK" := by decide
        rw [hup]; simp [CURRENCY_RATES_TO_EUR, List.lookup])

end BiznisWeb
